import Mathlib

/-!
# Verification of the WOW-Live-Stress-Test core

Shallow embedding of the capacity-driven staggered launch and
health-monitoring loop of the stress-test tool, together with proofs of
the specification's testable properties.

JavaScript numbers are modelled as rationals (`ℚ`), machine integers as
`ℕ`/`ℤ`, fallible asynchronous steps as `Except String` values, and the
externally mutated shutdown flag as a boolean oracle indexed by the order
in which the flag is read.
-/

namespace WowStress

/-! ## Capacity estimator (src speedtest, `calculateMaxBrowsers`)

Source:
```js
export function calculateMaxBrowsers(downloadKbps, streamBitrateKbps, safetyMargin = 0.8) {
  const usableBandwidth = downloadKbps * safetyMargin;
  const maxBrowsers = Math.floor(usableBandwidth / streamBitrateKbps);
  return Math.max(1, maxBrowsers);
}
```
-/

def calculateMaxBrowsers (downloadKbps streamBitrateKbps safetyMargin : ℚ) : ℤ :=
  let usableBandwidth := downloadKbps * safetyMargin
  let maxBrowsers := ⌊usableBandwidth / streamBitrateKbps⌋
  max 1 maxBrowsers

/-! ## Manual speed fallback (src speedtest, `promptManualSpeed`)

The interactive readline prompt is modelled by its parsed input:
`none` stands for a `parseFloat` result of `NaN` (non-numeric entry),
`some mbps` for a numeric entry. `jsRound` is JavaScript `Math.round`
(round half toward positive infinity).
-/

structure SpeedResult where
  downloadKbps : ℚ
  uploadKbps : ℚ
  ping : ℕ
deriving Repr, DecidableEq

def jsRound (x : ℚ) : ℤ := ⌊x + 1 / 2⌋

def promptManualSpeed (input : Option ℚ) : SpeedResult :=
  match input with
  | none => ⟨50000, 25000, 20⟩
  | some mbps =>
    if mbps ≤ 0 then ⟨50000, 25000, 20⟩
    else
      let downloadKbps : ℚ := (jsRound (mbps * 1000) : ℤ)
      ⟨downloadKbps, downloadKbps / 2, 20⟩

/-! ## Session probe (src stream-monitor)

`StreamHealth` is the in-page `window._streamHealth` record. A probe
read (`page.evaluate(() => window._streamHealth)`) either throws
(`crashed`, the execution context is gone), returns a falsy value
(`uninstalled`, the monitor was never injected), or returns the record
(`installed`).
-/

structure StreamHealth where
  isPlaying : Bool
  currentTime : ℚ
  lastTime : ℚ
  stalledCount : ℕ
  bufferingCount : ℕ
  errors : List String
  readyState : ℕ
deriving Repr, DecidableEq

inductive PageProbe where
  | crashed (msg : String)
  | uninstalled
  | installed (h : StreamHealth)
deriving Repr, DecidableEq

/-- The record returned by `getHealth` (shape of its documented return
type: playback fields plus the computed `healthy` flag). -/
structure HealthResult where
  isPlaying : Bool
  currentTime : ℚ
  stalledCount : ℕ
  bufferingCount : ℕ
  errors : List String
  healthy : Bool
deriving Repr, DecidableEq

/-- src stream-monitor `getHealth`: total — every failure mode of the
probe read is converted into an unhealthy `HealthResult` rather than
propagated to the caller. -/
def getHealth (p : PageProbe) : HealthResult :=
  match p with
  | .crashed msg => ⟨false, 0, 0, 0, [msg], false⟩
  | .uninstalled => ⟨false, 0, 0, 0, ["Monitor not initialized"], false⟩
  | .installed h =>
    let timeAdvancing := decide (h.lastTime < h.currentTime)
    let healthy := h.isPlaying && timeAdvancing && (h.errors.length == 0)
    ⟨h.isPlaying, h.currentTime, h.stalledCount, h.bufferingCount, h.errors, healthy⟩

/-! ## Browser manager (src browser-manager, `BrowserManager`)

Browsers and pages are tracked by their launch index. The constructor's
initial state is `initialState`. -/

structure Stats where
  launched : ℕ
  healthy : ℕ
  buffering : ℕ
  errors : ℕ
deriving Repr, DecidableEq

structure ManagerState where
  browsers : List ℕ
  pages : List ℕ
  stats : Stats
  isShuttingDown : Bool
  healthCheckActive : Bool
deriving Repr, DecidableEq

/-- `new BrowserManager()`. -/
def initialState : ManagerState :=
  ⟨[], [], ⟨0, 0, 0, 0⟩, false, false⟩

structure LaunchResult where
  success : Bool
  error : Option String
deriving Repr, DecidableEq

/-- The environment one `launchBrowser` call runs against: each awaited
step inside the `try` block either completes or throws with a message.
`launchStep` covers `chromium.launch` / `newContext` / `newPage`,
`gotoStep` is `page.goto`, `injectStep` is `injectMonitor`, `playStep`
is `attemptPlay`. `waitForPlayback` catches internally and never throws,
so it is modelled by its boolean result `playing`. -/
structure LaunchEnv where
  launchStep : Except String Unit
  gotoStep : Except String Unit
  injectStep : Except String Unit
  playStep : Except String Unit
  playing : Bool

/-- The first exception thrown inside `launchBrowser`'s try block, if
any, following the source's sequential awaits. -/
def firstThrow (env : LaunchEnv) : Option String :=
  match env.launchStep with
  | .error msg => some msg
  | .ok _ =>
    match env.gotoStep with
    | .error msg => some msg
    | .ok _ =>
      match env.injectStep with
      | .error msg => some msg
      | .ok _ =>
        match env.playStep with
        | .error msg => some msg
        | .ok _ => none

/-- The `catch` branch of `launchBrowser`: `this.stats.errors++`. -/
def recordLaunchError (st : ManagerState) : ManagerState :=
  { st with stats := { st.stats with errors := st.stats.errors + 1 } }

/-- src browser-manager `launchBrowser(index, streamUrl)`. -/
def launchBrowser (index : ℕ) (env : LaunchEnv) (st : ManagerState) :
    ManagerState × LaunchResult :=
  match env.launchStep with
  | .error msg => (recordLaunchError st, ⟨false, some msg⟩)
  | .ok _ =>
    match env.gotoStep with
    | .error msg => (recordLaunchError st, ⟨false, some msg⟩)
    | .ok _ =>
      match env.injectStep with
      | .error msg => (recordLaunchError st, ⟨false, some msg⟩)
      | .ok _ =>
        match env.playStep with
        | .error msg => (recordLaunchError st, ⟨false, some msg⟩)
        | .ok _ =>
          let st1 := { st with
            browsers := st.browsers ++ [index]
            pages := st.pages ++ [index]
            stats := { st.stats with launched := st.stats.launched + 1 } }
          if env.playing then
            ({ st1 with stats := { st1.stats with healthy := st1.stats.healthy + 1 } },
              ⟨true, none⟩)
          else
            (st1, ⟨true, some "Video not playing yet"⟩)

/-! ## Health-check tick (src browser-manager, `startHealthChecks`)

One tick of the `setInterval` callback. `probeOf` gives each tracked
page's probe state at this tick; `getHealth` is total, so the
`try/catch` around it in the source is already absorbed into `getHealth`
(a throwing `page.evaluate` lands in the `crashed` case and is counted
as an error through its non-empty `errors`). -/

inductive HealthCategory where
  | healthy
  | buffering
  | error
deriving Repr, DecidableEq

/-- The `if / else if / else` chain classifying one health result in the
tick body. -/
def classify (r : HealthResult) : HealthCategory :=
  if r.healthy then .healthy
  else if r.errors.length > 0 then .error
  else .buffering

/-- The body of the tick's `for (const page of this.pages)` loop, acting
on the accumulated `(healthy, buffering, errors)` counters. -/
def tickStep (probeOf : ℕ → PageProbe) (acc : ℕ × ℕ × ℕ) (p : ℕ) : ℕ × ℕ × ℕ :=
  let health := getHealth (probeOf p)
  if health.healthy then (acc.1 + 1, acc.2.1, acc.2.2)
  else if health.errors.length > 0 then (acc.1, acc.2.1, acc.2.2 + 1)
  else (acc.1, acc.2.1 + 1, acc.2.2)

/-- The fold of the tick body over the tracked pages, accumulating
`(healthy, buffering, errors)` counters from zero. -/
def tickCounts (probeOf : ℕ → PageProbe) (pages : List ℕ) : ℕ × ℕ × ℕ :=
  pages.foldl (tickStep probeOf) (0, 0, 0)

/-- One tick of the health-check interval: guard on the shutdown flag,
recount every tracked page from its fresh probe snapshot, and replace
the `healthy` / `buffering` / `errors` counters wholesale. -/
def healthTick (probeOf : ℕ → PageProbe) (st : ManagerState) : ManagerState :=
  if st.isShuttingDown then st
  else
    let counts := tickCounts probeOf st.pages
    { st with stats := { st.stats with
        healthy := counts.1
        buffering := counts.2.1
        errors := counts.2.2 } }

/-! ## Shutdown (src browser-manager, `shutdown`)

`closeOk b` says whether `browser.close()` for tracked browser `b`
succeeds; failures are swallowed and only successes are counted. The
returned `Option ℕ` is the reported closed-count: `none` when the call
was the idempotent no-op re-entry. -/

def shutdown (closeOk : ℕ → Bool) (st : ManagerState) : ManagerState × Option ℕ :=
  if st.isShuttingDown then (st, none)
  else
    let closed := (st.browsers.filter closeOk).length
    ({ st with
        isShuttingDown := true
        healthCheckActive := false
        browsers := []
        pages := [] },
      some closed)

/-! ## Staggered launch (src browser-manager, `startStaggeredLaunch`)

The loop body is sequential: each `launchBrowser` is awaited before the
next begins, so a run is a linear event trace. `this.isShuttingDown` can
be flipped by a concurrent `shutdown()` between awaits; it is modelled
by the oracle `shutdownAt c`, the flag's value at its `c`-th read.
Reads happen at the top of each iteration and (except on the last
iteration, where `i < count - 1` short-circuits) in the sleep guard;
both read slots are allocated per iteration so the oracle's index
advances by two each time around the loop. `envOf i` is the environment
the `i`-th `launchBrowser` call runs against; the `onProgress` callback
is pure display and not modelled. -/

inductive LaunchEvent where
  | launch (index : ℕ)
  | sleep (ms : ℕ)
deriving Repr, DecidableEq

/-- The loop of `startStaggeredLaunch`, with `fuel` the number of
remaining iterations, `i` the 0-based loop variable and `c` the index of
the next shutdown-flag read. Returns the final manager state and the
event trace. -/
def runStagger (delayMs : ℕ) (shutdownAt : ℕ → Bool) (envOf : ℕ → LaunchEnv) :
    ℕ → ℕ → ℕ → ManagerState → ManagerState × List LaunchEvent
  | 0, _, _, st => (st, [])
  | fuel + 1, i, c, st =>
    if shutdownAt c then (st, [])
    else
      let res := launchBrowser (i + 1) (envOf (i + 1)) st
      if fuel = 0 then
        (res.1, [LaunchEvent.launch (i + 1)])
      else if shutdownAt (c + 1) then
        let rest := runStagger delayMs shutdownAt envOf fuel (i + 1) (c + 2) res.1
        (rest.1, LaunchEvent.launch (i + 1) :: rest.2)
      else
        let rest := runStagger delayMs shutdownAt envOf fuel (i + 1) (c + 2) res.1
        (rest.1, LaunchEvent.launch (i + 1) :: LaunchEvent.sleep delayMs :: rest.2)

/-- src browser-manager `startStaggeredLaunch(count, streamUrl, delayMs, onProgress)`. -/
def startStaggeredLaunch (count delayMs : ℕ) (shutdownAt : ℕ → Bool)
    (envOf : ℕ → LaunchEnv) (st : ManagerState) : ManagerState × List LaunchEvent :=
  runStagger delayMs shutdownAt envOf count 0 0 st

/-- The expected trace of a run that is never interrupted: launches at
`i+1, i+2, ...` with one sleep between consecutive launches and none
after the last. -/
def fullTrace (delayMs : ℕ) : ℕ → ℕ → List LaunchEvent
  | 0, _ => []
  | fuel + 1, i =>
    if fuel = 0 then [LaunchEvent.launch (i + 1)]
    else LaunchEvent.launch (i + 1) :: LaunchEvent.sleep delayMs :: fullTrace delayMs fuel (i + 1)

/-- The launch indices of a trace, in order. -/
def launchIndices : List LaunchEvent → List ℕ
  | [] => []
  | LaunchEvent.launch i :: rest => i :: launchIndices rest
  | LaunchEvent.sleep _ :: rest => launchIndices rest

/-! ## Helper lemmas -/

lemma tickStep_foldl (probeOf : ℕ → PageProbe) (pages : List ℕ) :
    ∀ acc : ℕ × ℕ × ℕ,
      pages.foldl (tickStep probeOf) acc
        = (acc.1 + ((pages.map fun p => classify (getHealth (probeOf p))).count
              HealthCategory.healthy),
           acc.2.1 + ((pages.map fun p => classify (getHealth (probeOf p))).count
              HealthCategory.buffering),
           acc.2.2 + ((pages.map fun p => classify (getHealth (probeOf p))).count
              HealthCategory.error)) := by
  induction pages with
  | nil => intro acc; simp
  | cons p ps ih =>
    intro acc
    simp only [List.foldl_cons, List.map_cons, List.count_cons, ih]
    by_cases hh : (getHealth (probeOf p)).healthy = true
    · simp [tickStep, classify, hh]
      omega
    · by_cases he : (getHealth (probeOf p)).errors.length > 0
      · simp [tickStep, classify, hh, he]
        omega
      · simp [tickStep, classify, hh, he]
        omega

/-- The three counters accumulated by a tick are exactly the counts of
the per-page classification. -/
lemma tickCounts_eq_counts (probeOf : ℕ → PageProbe) (pages : List ℕ) :
    tickCounts probeOf pages
      = (((pages.map fun p => classify (getHealth (probeOf p))).count
            HealthCategory.healthy),
         ((pages.map fun p => classify (getHealth (probeOf p))).count
            HealthCategory.buffering),
         ((pages.map fun p => classify (getHealth (probeOf p))).count
            HealthCategory.error)) := by
  simpa using tickStep_foldl probeOf pages (0, 0, 0)

lemma classify_counts_sum (l : List HealthCategory) :
    l.count HealthCategory.healthy + l.count HealthCategory.buffering
      + l.count HealthCategory.error = l.length := by
  induction l with
  | nil => simp
  | cons c cs ih =>
    cases c <;> simp [List.count_cons] <;> omega

/-- The counters written by a tick depend only on the tracked page list
and the probe snapshots — never on the statistics held before the tick. -/
lemma healthTick_ignores_old_stats (probeOf : ℕ → PageProbe)
    (st1 st2 : ManagerState) (hp : st1.pages = st2.pages)
    (h1 : st1.isShuttingDown = false) (h2 : st2.isShuttingDown = false) :
    (healthTick probeOf st1).stats.healthy = (healthTick probeOf st2).stats.healthy
      ∧ (healthTick probeOf st1).stats.buffering = (healthTick probeOf st2).stats.buffering
      ∧ (healthTick probeOf st1).stats.errors = (healthTick probeOf st2).stats.errors := by
  simp [healthTick, h1, h2, hp]

lemma runStagger_no_shutdown (delayMs : ℕ) (envOf : ℕ → LaunchEnv) :
    ∀ (fuel i c : ℕ) (st : ManagerState),
      (runStagger delayMs (fun _ => false) envOf fuel i c st).2
        = fullTrace delayMs fuel i := by
  intro fuel
  induction fuel with
  | zero => intro i c st; rfl
  | succ f ih =>
    intro i c st
    by_cases hf : f = 0
    · subst hf; simp [runStagger, fullTrace]
    · simp [runStagger, fullTrace, hf, ih]

lemma launchIndices_fullTrace (delayMs : ℕ) :
    ∀ (fuel i : ℕ),
      launchIndices (fullTrace delayMs fuel i)
        = (List.range fuel).map (fun j => i + j + 1) := by
  intro fuel
  induction fuel with
  | zero => intro i; rfl
  | succ f ih =>
    intro i
    by_cases hf : f = 0
    · subst hf; simp [fullTrace, launchIndices, List.range_succ]
    · rw [List.range_succ_eq_map]
      simp only [fullTrace, hf, if_false, launchIndices, ih, List.map_cons, List.map_map]
      refine List.cons_eq_cons.mpr ⟨by omega, List.map_congr_left fun a _ => by
        simp [Function.comp]; omega⟩

/-- Whatever the shutdown oracle does, the launches a staggered run
issues are the consecutive indices `i+1, ..., i+k` for some `k` no
larger than the remaining budget, and `k` is pinned to the oracle: the
top-of-loop flag read of every iteration that launched returned false,
and a run that stopped short of its budget did so because the flag read
of the next iteration returned true — so no launch is ever issued at or
after an observed shutdown, and none is skipped or reordered before it. -/
lemma runStagger_launches (delayMs : ℕ) (shutdownAt : ℕ → Bool) (envOf : ℕ → LaunchEnv) :
    ∀ (fuel i c : ℕ) (st : ManagerState),
      ∃ k ≤ fuel,
        launchIndices (runStagger delayMs shutdownAt envOf fuel i c st).2
          = (List.range k).map (fun j => i + j + 1)
        ∧ (∀ j < k, shutdownAt (c + 2 * j) = false)
        ∧ (k < fuel → shutdownAt (c + 2 * k) = true) := by
  intro fuel
  induction fuel with
  | zero =>
    intro i c st
    exact ⟨0, le_refl 0, rfl, fun j hj => absurd hj (Nat.not_lt_zero j),
      fun h => absurd h (lt_irrefl 0)⟩
  | succ f ih =>
    intro i c st
    by_cases hsd : shutdownAt c
    · refine ⟨0, Nat.zero_le _, by simp [runStagger, hsd, launchIndices],
        fun j hj => absurd hj (Nat.not_lt_zero j), fun _ => ?_⟩
      simpa using hsd
    · by_cases hf : f = 0
      · subst hf
        refine ⟨1, le_refl 1, ?_, ?_, fun h => absurd h (lt_irrefl 1)⟩
        · simp [runStagger, hsd, launchIndices, List.range_succ]
        · intro j hj
          interval_cases j
          simpa using eq_false_of_ne_true hsd
      · obtain ⟨k, hk, heq, hfalse, htrue⟩ :=
          ih (i + 1) (c + 2) ((launchBrowser (i + 1) (envOf (i + 1)) st).1)
        refine ⟨k + 1, by omega, ?_, ?_, ?_⟩
        · rw [List.range_succ_eq_map]
          by_cases hsd2 : shutdownAt (c + 1) <;>
            simp only [runStagger, hsd, hf, hsd2, if_false, if_true, Bool.false_eq_true,
              launchIndices, heq, List.map_cons, List.map_map] <;>
            exact List.cons_eq_cons.mpr ⟨by omega, List.map_congr_left fun a _ => by
              simp [Function.comp]; omega⟩
        · intro j hj
          cases j with
          | zero => simpa using eq_false_of_ne_true hsd
          | succ j' =>
            have harith : c + 2 * (j' + 1) = c + 2 + 2 * j' := by omega
            rw [harith]
            exact hfalse j' (by omega)
        · intro h
          have harith : c + 2 * (k + 1) = c + 2 + 2 * k := by omega
          rw [harith]
          exact htrue (by omega)

lemma launchBrowser_pages_cases (index : ℕ) (env : LaunchEnv) (st : ManagerState) :
    (launchBrowser index env st).1.pages = st.pages
      ∨ (launchBrowser index env st).1.pages = st.pages ++ [index] := by
  rcases env with ⟨e1, e2, e3, e4, pl⟩
  cases e1 <;> cases e2 <;> cases e3 <;> cases e4 <;> cases pl <;>
    simp [launchBrowser, recordLaunchError]

/-- A staggered run only ever appends to the tracked page list: sessions
launched before a shutdown request are never retracted by the launch
loop. -/
lemma runStagger_pages (delayMs : ℕ) (shutdownAt : ℕ → Bool) (envOf : ℕ → LaunchEnv) :
    ∀ (fuel i c : ℕ) (st : ManagerState),
      ∃ t, ((runStagger delayMs shutdownAt envOf fuel i c st).1).pages
        = st.pages ++ t := by
  intro fuel
  induction fuel with
  | zero => intro i c st; exact ⟨[], by simp [runStagger]⟩
  | succ f ih =>
    intro i c st
    by_cases hsd : shutdownAt c
    · exact ⟨[], by simp [runStagger, hsd]⟩
    · have hlb := launchBrowser_pages_cases (i + 1) (envOf (i + 1)) st
      by_cases hf : f = 0
      · subst hf
        rcases hlb with h | h
        · exact ⟨[], by simp [runStagger, hsd, h]⟩
        · exact ⟨[i + 1], by simp [runStagger, hsd, h]⟩
      · obtain ⟨t2, ht2⟩ := ih (i + 1) (c + 2) ((launchBrowser (i + 1) (envOf (i + 1)) st).1)
        rcases hlb with h | h
        · refine ⟨t2, ?_⟩
          by_cases hsd2 : shutdownAt (c + 1) <;>
            simp [runStagger, hsd, hf, hsd2, ht2, h]
        · refine ⟨[i + 1] ++ t2, ?_⟩
          by_cases hsd2 : shutdownAt (c + 1) <;>
            simp [runStagger, hsd, hf, hsd2, ht2, h]

/-! ## Theorems -/

/-- C1: for every `downloadKbps > 0`, `streamBitrateKbps > 0` and
`safetyMargin ∈ (0,1]`, the budget calculation returns
`max 1 ⌊downloadKbps * safetyMargin / streamBitrateKbps⌋`, hence is
always at least 1; in particular it returns 28 on
`(100000, 2800, 0.8)` and 1 on `(1, 2800, 0.8)`. -/
theorem calculateMaxBrowsers_spec (downloadKbps streamBitrateKbps safetyMargin : ℚ)
    (hd : 0 < downloadKbps) (hb : 0 < streamBitrateKbps)
    (hm0 : 0 < safetyMargin) (hm1 : safetyMargin ≤ 1) :
    calculateMaxBrowsers downloadKbps streamBitrateKbps safetyMargin
        = max 1 ⌊downloadKbps * safetyMargin / streamBitrateKbps⌋
      ∧ 1 ≤ calculateMaxBrowsers downloadKbps streamBitrateKbps safetyMargin
      ∧ calculateMaxBrowsers 100000 2800 0.8 = 28
      ∧ calculateMaxBrowsers 1 2800 0.8 = 1 := by
  refine ⟨rfl, le_max_left 1 _, ?_, ?_⟩ <;> (unfold calculateMaxBrowsers; norm_num)

/-- Witness for C1 at `(100000, 2800, 0.8)`. -/
theorem calculateMaxBrowsers_spec_witness :
    calculateMaxBrowsers 100000 2800 0.8
        = max 1 ⌊(100000 : ℚ) * 0.8 / 2800⌋
      ∧ 1 ≤ calculateMaxBrowsers 100000 2800 0.8
      ∧ calculateMaxBrowsers 100000 2800 0.8 = 28
      ∧ calculateMaxBrowsers 1 2800 0.8 = 1 :=
  calculateMaxBrowsers_spec 100000 2800 0.8 (by norm_num) (by norm_num)
    (by norm_num) (by norm_num)

/-- C2: for a readable probe snapshot `h`, the health classification is
healthy iff `isPlaying` is true, the current playback-time sample is
strictly greater than the previous one, and the errors list is empty;
equal consecutive samples or a non-empty error list each force an
unhealthy classification. -/
theorem getHealth_healthy_iff (h : StreamHealth) :
    ((getHealth (PageProbe.installed h)).healthy = true
        ↔ h.isPlaying = true ∧ h.lastTime < h.currentTime ∧ h.errors = [])
      ∧ (h.currentTime = h.lastTime →
          (getHealth (PageProbe.installed h)).healthy = false)
      ∧ (h.errors ≠ [] →
          (getHealth (PageProbe.installed h)).healthy = false) := by
  refine ⟨?_, ?_, ?_⟩
  · simp [getHealth, Bool.and_eq_true, List.length_eq_zero, and_assoc]
  · intro hEq
    simp [getHealth, hEq, lt_irrefl]
  · intro hne
    simp [getHealth, List.length_eq_zero, hne]

/-- Witness for C2 at a snapshot that is playing, frozen at time 5 with
a pending error, hence unhealthy through both tie-break rules. -/
theorem getHealth_healthy_iff_witness :
    ((getHealth (PageProbe.installed ⟨true, 5, 5, 0, 1, ["Unknown error"], 3⟩)).healthy = true
        ↔ (true = true ∧ (5 : ℚ) < 5 ∧ (["Unknown error"] : List String) = []))
      ∧ ((5 : ℚ) = 5 →
          (getHealth (PageProbe.installed ⟨true, 5, 5, 0, 1, ["Unknown error"], 3⟩)).healthy = false)
      ∧ ((["Unknown error"] : List String) ≠ [] →
          (getHealth (PageProbe.installed ⟨true, 5, 5, 0, 1, ["Unknown error"], 3⟩)).healthy = false) :=
  getHealth_healthy_iff ⟨true, 5, 5, 0, 1, ["Unknown error"], 3⟩

/-- C7: when the probe state cannot be read — the probe object is
absent, or the read itself throws — `getHealth` returns (rather than
propagates) an unhealthy result whose errors are
`["Monitor not initialized"]` (absent probe) or the single
execution-error message (thrown read). -/
theorem getHealth_unreadable_spec :
    ((getHealth PageProbe.uninstalled).healthy = false
        ∧ (getHealth PageProbe.uninstalled).errors = ["Monitor not initialized"])
      ∧ ∀ msg : String,
          (getHealth (PageProbe.crashed msg)).healthy = false
            ∧ (getHealth (PageProbe.crashed msg)).errors = [msg] :=
  ⟨⟨rfl, rfl⟩, fun _ => ⟨rfl, rfl⟩⟩

/-- C8: an unparsable or non-positive manual bandwidth entry yields the
fallback `{downloadKbps := 50000, uploadKbps := 25000, ping := 20}`; a
positive entry of `mbps` yields
`{downloadKbps := round (mbps * 1000), uploadKbps := downloadKbps / 2, ping := 20}`. -/
theorem promptManualSpeed_spec :
    promptManualSpeed none = ⟨50000, 25000, 20⟩
      ∧ (∀ mbps : ℚ, mbps ≤ 0 → promptManualSpeed (some mbps) = ⟨50000, 25000, 20⟩)
      ∧ (∀ mbps : ℚ, 0 < mbps →
          promptManualSpeed (some mbps)
            = ⟨((jsRound (mbps * 1000) : ℤ) : ℚ),
                ((jsRound (mbps * 1000) : ℤ) : ℚ) / 2, 20⟩) := by
  refine ⟨rfl, fun mbps hm => ?_, fun mbps hm => ?_⟩
  · simp [promptManualSpeed, hm]
  · simp [promptManualSpeed, not_le.mpr hm]

/-- Witness for C8 at the entries `-3` and `50` Mbps. -/
theorem promptManualSpeed_spec_witness :
    promptManualSpeed none = ⟨50000, 25000, 20⟩
      ∧ promptManualSpeed (some (-3)) = ⟨50000, 25000, 20⟩
      ∧ promptManualSpeed (some 50)
          = ⟨((jsRound ((50 : ℚ) * 1000) : ℤ) : ℚ),
              ((jsRound ((50 : ℚ) * 1000) : ℤ) : ℚ) / 2, 20⟩ :=
  ⟨promptManualSpeed_spec.1,
    promptManualSpeed_spec.2.1 (-3) (by norm_num),
    promptManualSpeed_spec.2.2 50 (by norm_num)⟩

/-- C4: shutdown is idempotent — a second `shutdown` call leaves the
state fixed and reports nothing, so statistics and closed-session count
after two calls equal those after one; the first shutdown clears the
monitoring interval (before the teardown sweep, by the sequencing of
`shutdown`), empties the tracked browser and page lists, leaves the
statistics untouched, and reports as closed exactly the tracked
browsers whose individual `close` succeeded — failures are swallowed
without aborting the sweep. -/
theorem shutdown_idempotent (closeOk : ℕ → Bool) (st : ManagerState)
    (h : st.isShuttingDown = false) :
    (shutdown closeOk (shutdown closeOk st).1).1 = (shutdown closeOk st).1
      ∧ (shutdown closeOk (shutdown closeOk st).1).2 = none
      ∧ (shutdown closeOk st).1.isShuttingDown = true
      ∧ (shutdown closeOk st).1.healthCheckActive = false
      ∧ (shutdown closeOk st).1.browsers = []
      ∧ (shutdown closeOk st).1.pages = []
      ∧ (shutdown closeOk st).1.stats = st.stats
      ∧ (shutdown closeOk st).2 = some (st.browsers.filter closeOk).length := by
  simp [shutdown, h]

/-- Witness for C4: a manager tracking three browsers of which closing
the second fails. -/
theorem shutdown_idempotent_witness :
    (shutdown (fun b => b ≠ 2) (shutdown (fun b => b ≠ 2)
          ⟨[1, 2, 3], [1, 2, 3], ⟨3, 2, 1, 0⟩, false, true⟩).1).1
        = (shutdown (fun b => b ≠ 2) ⟨[1, 2, 3], [1, 2, 3], ⟨3, 2, 1, 0⟩, false, true⟩).1
      ∧ (shutdown (fun b => b ≠ 2) (shutdown (fun b => b ≠ 2)
          ⟨[1, 2, 3], [1, 2, 3], ⟨3, 2, 1, 0⟩, false, true⟩).1).2 = none
      ∧ (shutdown (fun b => b ≠ 2)
          ⟨[1, 2, 3], [1, 2, 3], ⟨3, 2, 1, 0⟩, false, true⟩).1.isShuttingDown = true
      ∧ (shutdown (fun b => b ≠ 2)
          ⟨[1, 2, 3], [1, 2, 3], ⟨3, 2, 1, 0⟩, false, true⟩).1.healthCheckActive = false
      ∧ (shutdown (fun b => b ≠ 2)
          ⟨[1, 2, 3], [1, 2, 3], ⟨3, 2, 1, 0⟩, false, true⟩).1.browsers = []
      ∧ (shutdown (fun b => b ≠ 2)
          ⟨[1, 2, 3], [1, 2, 3], ⟨3, 2, 1, 0⟩, false, true⟩).1.pages = []
      ∧ (shutdown (fun b => b ≠ 2)
          ⟨[1, 2, 3], [1, 2, 3], ⟨3, 2, 1, 0⟩, false, true⟩).1.stats = ⟨3, 2, 1, 0⟩
      ∧ (shutdown (fun b => b ≠ 2)
          ⟨[1, 2, 3], [1, 2, 3], ⟨3, 2, 1, 0⟩, false, true⟩).2
          = some (([1, 2, 3].filter fun b => b ≠ 2)).length :=
  shutdown_idempotent (fun b => b ≠ 2)
    ⟨[1, 2, 3], [1, 2, 3], ⟨3, 2, 1, 0⟩, false, true⟩ rfl

/-- The environment of a launch whose pre-playback steps all succeed,
whose probe is installed, but whose muted play attempt throws — a
failure after probe installation. -/
def envPlayCrash : LaunchEnv :=
  ⟨.ok (), .ok (), .ok (), .error "play crashed", false⟩

/-- C6 counterexample: a launch in which browser start, navigation and
probe installation all succeed but the subsequent muted play attempt
throws returns `success: false` — so `success: false` is not restricted
to steps before probe installation. -/
theorem launchBrowser_post_install_throw :
    (launchBrowser 1 envPlayCrash initialState).2.success = false
      ∧ (launchBrowser 1 envPlayCrash initialState).2.error = some "play crashed"
      ∧ envPlayCrash.launchStep = Except.ok ()
      ∧ envPlayCrash.gotoStep = Except.ok ()
      ∧ envPlayCrash.injectStep = Except.ok () :=
  ⟨rfl, rfl, rfl, rfl, rfl⟩

/-- C6 (amended): a launch that installs its probe and attempts play
without throwing but does not confirm playback returns
`{success: true, error: "Video not playing yet"}`; a launch returns
`success: false` exactly when one of the steps up to and including the
muted play attempt throws, with the first thrown message captured
verbatim; every `success: true` launch appends the session to the
tracked lists and increments the launch counter. -/
theorem launchBrowser_result_spec (index : ℕ) (env : LaunchEnv) (st : ManagerState) :
    (env.launchStep = .ok () → env.gotoStep = .ok () → env.injectStep = .ok () →
        env.playStep = .ok () → env.playing = false →
        (launchBrowser index env st).2 = ⟨true, some "Video not playing yet"⟩)
      ∧ ((launchBrowser index env st).2.success = false ↔ firstThrow env ≠ none)
      ∧ (∀ msg, firstThrow env = some msg →
          (launchBrowser index env st).2 = ⟨false, some msg⟩)
      ∧ ((launchBrowser index env st).2.success = true →
          (launchBrowser index env st).1.pages = st.pages ++ [index]
            ∧ (launchBrowser index env st).1.browsers = st.browsers ++ [index]
            ∧ (launchBrowser index env st).1.stats.launched = st.stats.launched + 1) := by
  rcases env with ⟨e1, e2, e3, e4, pl⟩
  cases e1 <;> cases e2 <;> cases e3 <;> cases e4 <;> cases pl <;>
    simp [launchBrowser, firstThrow, recordLaunchError]

/-- The environment of a launch that is fully alive and instrumented
but never confirms playback. -/
def envAdvisory : LaunchEnv := ⟨.ok (), .ok (), .ok (), .ok (), false⟩

/-- Witness for C6 at an instrumented session whose playback is never
confirmed, launched as session 1 from the initial manager state. -/
theorem launchBrowser_result_spec_witness :
    (launchBrowser 1 envAdvisory initialState).2 = ⟨true, some "Video not playing yet"⟩
      ∧ (launchBrowser 1 envAdvisory initialState).1.pages = initialState.pages ++ [1]
      ∧ (launchBrowser 1 envAdvisory initialState).1.stats.launched
          = initialState.stats.launched + 1 :=
  ⟨(launchBrowser_result_spec 1 envAdvisory initialState).1 rfl rfl rfl rfl rfl,
    ((launchBrowser_result_spec 1 envAdvisory initialState).2.2.2 rfl).1,
    ((launchBrowser_result_spec 1 envAdvisory initialState).2.2.2 rfl).2.2⟩

/-- C5 (amended): a polling tick recomputes `{healthy, buffering,
errors}` — not `launched` — in full from the current probe snapshot of
every tracked session: the written counters depend only on the page
list and the fresh snapshots, never on the previous statistics, while
`launched` (maintained incrementally at launch time) and the tracked
lists are untouched; the three recomputed counters account exactly for
(hence are at most) the number of tracked sessions, and a session whose
snapshot read throws is classified as an error for the tick yet remains
tracked. -/
theorem healthTick_spec (probeOf : ℕ → PageProbe) (st : ManagerState)
    (h : st.isShuttingDown = false) :
    (healthTick probeOf st).stats.healthy + (healthTick probeOf st).stats.buffering
          + (healthTick probeOf st).stats.errors = st.pages.length
      ∧ (healthTick probeOf st).pages = st.pages
      ∧ (healthTick probeOf st).browsers = st.browsers
      ∧ (healthTick probeOf st).stats.launched = st.stats.launched
      ∧ (∀ p msg, probeOf p = PageProbe.crashed msg →
          classify (getHealth (probeOf p)) = HealthCategory.error)
      ∧ (∀ st2 : ManagerState, st2.pages = st.pages → st2.isShuttingDown = false →
          (healthTick probeOf st2).stats.healthy = (healthTick probeOf st).stats.healthy
            ∧ (healthTick probeOf st2).stats.buffering
                = (healthTick probeOf st).stats.buffering
            ∧ (healthTick probeOf st2).stats.errors
                = (healthTick probeOf st).stats.errors) := by
  refine ⟨?_, ?_, ?_, ?_, ?_, ?_⟩
  · simp only [healthTick, h, Bool.false_eq_true, if_false, tickCounts_eq_counts]
    simpa using classify_counts_sum (st.pages.map fun p => classify (getHealth (probeOf p)))
  · simp [healthTick, h]
  · simp [healthTick, h]
  · simp [healthTick, h]
  · intro p msg hc
    simp [hc, getHealth, classify]
  · intro st2 hp h2
    exact healthTick_ignores_old_stats probeOf st2 st hp h2 h

/-- The probe environment used by the tick witnesses: page 1 advancing
and error-free, page 2's execution context gone, page 3 never
instrumented. -/
def probeW : ℕ → PageProbe := fun p =>
  if p = 1 then .installed ⟨true, 7, 5, 0, 0, [], 4⟩
  else if p = 2 then .crashed "Execution context was destroyed"
  else .uninstalled

/-- The manager used by the tick witnesses: three tracked sessions and
deliberately wrong pre-tick counters. -/
def stW : ManagerState := ⟨[1, 2, 3], [1, 2, 3], ⟨3, 9, 9, 9⟩, false, true⟩

/-- C5 counterexample: two managers tracking the same three pages whose
probes return the same snapshots, differing only in their `launched`
counter, keep their different `launched` values across a polling tick —
`launched` is not recomputed from the snapshots on the tick; it is
carried over from launch-time increments. -/
theorem healthTick_launched_carried_over :
    (healthTick probeW ⟨[1, 2, 3], [1, 2, 3], ⟨42, 9, 9, 9⟩, false, true⟩).stats.launched = 42
      ∧ (healthTick probeW ⟨[1, 2, 3], [1, 2, 3], ⟨7, 9, 9, 9⟩, false, true⟩).stats.launched = 7 :=
  ⟨rfl, rfl⟩

/-- Witness for C5 on `stW`: three tracked sessions, one of which threw
on read, and a second manager differing only in its stale counters. -/
theorem healthTick_spec_witness :
    (healthTick probeW stW).stats.healthy + (healthTick probeW stW).stats.buffering
          + (healthTick probeW stW).stats.errors = stW.pages.length
      ∧ (healthTick probeW stW).pages = stW.pages
      ∧ classify (getHealth (probeW 2)) = HealthCategory.error
      ∧ (healthTick probeW ⟨[9], [1, 2, 3], ⟨0, 0, 0, 0⟩, false, false⟩).stats.healthy
          = (healthTick probeW stW).stats.healthy :=
  ⟨(healthTick_spec probeW stW rfl).1,
    (healthTick_spec probeW stW rfl).2.1,
    (healthTick_spec probeW stW rfl).2.2.2.2.1 2 "Execution context was destroyed" rfl,
    ((healthTick_spec probeW stW rfl).2.2.2.2.2
      ⟨[9], [1, 2, 3], ⟨0, 0, 0, 0⟩, false, false⟩ rfl rfl).1⟩

/-- C9: on a polling tick each tracked session lands in exactly one of
the three categories — the written counters are the counts of the single
per-session classification — and for a non-healthy readable result the
tie-break is: error if and only if its errors list is non-empty,
buffering otherwise. -/
theorem classify_tiebreak_spec (probeOf : ℕ → PageProbe) (st : ManagerState)
    (h : st.isShuttingDown = false) :
    (healthTick probeOf st).stats.healthy
        = ((st.pages.map fun p => classify (getHealth (probeOf p))).count
            HealthCategory.healthy)
      ∧ (healthTick probeOf st).stats.buffering
          = ((st.pages.map fun p => classify (getHealth (probeOf p))).count
              HealthCategory.buffering)
      ∧ (healthTick probeOf st).stats.errors
          = ((st.pages.map fun p => classify (getHealth (probeOf p))).count
              HealthCategory.error)
      ∧ (∀ r : HealthResult, r.healthy = true → classify r = HealthCategory.healthy)
      ∧ (∀ r : HealthResult, r.healthy = false →
          ((classify r = HealthCategory.error) ↔ r.errors ≠ []))
      ∧ (∀ r : HealthResult, r.healthy = false →
          ((classify r = HealthCategory.buffering) ↔ r.errors = [])) := by
  refine ⟨?_, ?_, ?_, ?_, ?_, ?_⟩
  · simp [healthTick, h, tickCounts_eq_counts]
  · simp [healthTick, h, tickCounts_eq_counts]
  · simp [healthTick, h, tickCounts_eq_counts]
  · intro r hr; simp [classify, hr]
  · intro r hr
    by_cases he : r.errors = [] <;> simp [classify, hr, he, List.length_pos]
  · intro r hr
    by_cases he : r.errors = [] <;> simp [classify, hr, he, List.length_pos]

/-- Witness for C9 on `stW`, with the tie-break instantiated at a
non-healthy errored result and a non-healthy error-free one. -/
theorem classify_tiebreak_spec_witness :
    (healthTick probeW stW).stats.healthy
        = ((stW.pages.map fun p => classify (getHealth (probeW p))).count
            HealthCategory.healthy)
      ∧ ((classify ⟨false, 0, 0, 0, ["Unknown error"], false⟩ = HealthCategory.error)
          ↔ (["Unknown error"] : List String) ≠ [])
      ∧ ((classify ⟨false, 0, 0, 0, [], false⟩ = HealthCategory.buffering)
          ↔ ([] : List String) = []) :=
  ⟨(classify_tiebreak_spec probeW stW rfl).1,
    (classify_tiebreak_spec probeW stW rfl).2.2.2.2.1
      ⟨false, 0, 0, 0, ["Unknown error"], false⟩ rfl,
    (classify_tiebreak_spec probeW stW rfl).2.2.2.2.2
      ⟨false, 0, 0, 0, [], false⟩ rfl⟩

/-- C10: launch itself mutates the statistics — a launch whose every
step succeeds and whose playback is confirmed increments `launched` and
`healthy` by one; a launch that throws increments only `errors`, leaving
`launched` and the tracked lists unchanged; and any later polling tick
overwrites the `healthy` / `buffering` / `errors` counters wholesale,
independently of those launch-time contributions. -/
theorem launch_stats_effect (index : ℕ) (env : LaunchEnv) (st : ManagerState) :
    (firstThrow env = none → env.playing = true →
        (launchBrowser index env st).1.stats.launched = st.stats.launched + 1
          ∧ (launchBrowser index env st).1.stats.healthy = st.stats.healthy + 1
          ∧ (launchBrowser index env st).1.stats.buffering = st.stats.buffering
          ∧ (launchBrowser index env st).1.stats.errors = st.stats.errors)
      ∧ ((launchBrowser index env st).2.success = false →
          (launchBrowser index env st).1.stats.errors = st.stats.errors + 1
            ∧ (launchBrowser index env st).1.stats.launched = st.stats.launched
            ∧ (launchBrowser index env st).1.browsers = st.browsers
            ∧ (launchBrowser index env st).1.pages = st.pages)
      ∧ (∀ (probeOf : ℕ → PageProbe) (st1 st2 : ManagerState), st1.pages = st2.pages →
          st1.isShuttingDown = false → st2.isShuttingDown = false →
          (healthTick probeOf st1).stats.healthy = (healthTick probeOf st2).stats.healthy
            ∧ (healthTick probeOf st1).stats.buffering
                = (healthTick probeOf st2).stats.buffering
            ∧ (healthTick probeOf st1).stats.errors
                = (healthTick probeOf st2).stats.errors) := by
  refine ⟨?_, ?_, fun probeOf st1 st2 hp h1 h2 =>
    healthTick_ignores_old_stats probeOf st1 st2 hp h1 h2⟩ <;>
  · rcases env with ⟨e1, e2, e3, e4, pl⟩
    cases e1 <;> cases e2 <;> cases e3 <;> cases e4 <;> cases pl <;>
      simp [launchBrowser, firstThrow, recordLaunchError]

/-- Witness for C10: a confirmed launch into `stW`, a launch whose
navigation throws, and the tick independence at two managers sharing
`stW`'s page list. -/
theorem launch_stats_effect_witness :
    ((launchBrowser 4 ⟨.ok (), .ok (), .ok (), .ok (), true⟩ stW).1.stats.launched
          = stW.stats.launched + 1
        ∧ (launchBrowser 4 ⟨.ok (), .ok (), .ok (), .ok (), true⟩ stW).1.stats.healthy
            = stW.stats.healthy + 1)
      ∧ ((launchBrowser 4 ⟨.ok (), .error "net::ERR_CONNECTION_REFUSED", .ok (), .ok (),
            false⟩ stW).1.stats.errors = stW.stats.errors + 1
        ∧ (launchBrowser 4 ⟨.ok (), .error "net::ERR_CONNECTION_REFUSED", .ok (), .ok (),
            false⟩ stW).1.pages = stW.pages)
      ∧ (healthTick probeW stW).stats.errors
          = (healthTick probeW ⟨[], [1, 2, 3], ⟨0, 0, 0, 0⟩, false, false⟩).stats.errors :=
  ⟨⟨((launch_stats_effect 4 ⟨.ok (), .ok (), .ok (), .ok (), true⟩ stW).1 rfl rfl).1,
      ((launch_stats_effect 4 ⟨.ok (), .ok (), .ok (), .ok (), true⟩ stW).1 rfl rfl).2.1⟩,
    ⟨((launch_stats_effect 4 ⟨.ok (), .error "net::ERR_CONNECTION_REFUSED", .ok (), .ok (),
        false⟩ stW).2.1 rfl).1,
      ((launch_stats_effect 4 ⟨.ok (), .error "net::ERR_CONNECTION_REFUSED", .ok (), .ok (),
        false⟩ stW).2.1 rfl).2.2.2⟩,
    ((launch_stats_effect 4 ⟨.ok (), .ok (), .ok (), .ok (), true⟩ stW).2.2 probeW stW
      ⟨[], [1, 2, 3], ⟨0, 0, 0, 0⟩, false, false⟩ rfl rfl rfl).2.2⟩

/-- C3: for a budget `count ≥ 1`, an uninterrupted staggered run
produces exactly the sequential trace `fullTrace` — launches `1..count`
in increasing order with the fixed stagger delay between consecutive
launches and none after the last — so its launch indices are exactly
`1..count`; under an arbitrary shutdown oracle the launches issued are
`1..k` for some `k ≤ count` where `k` is pinned to the oracle's reads:
the top-of-loop flag read of each of the `k` iterations that launched
returned false, and a run stopped short of its budget stopped because
the next iteration's flag read returned true — once a shutdown request
is observed at a between-launches check no further launch is issued;
a shutdown already observed at the first check aborts the whole run,
and already-launched sessions remain tracked: the loop only ever
appends to the page list. -/
theorem startStaggeredLaunch_spec (count delayMs : ℕ) (shutdownAt : ℕ → Bool)
    (envOf : ℕ → LaunchEnv) (st : ManagerState) (hcount : 1 ≤ count) :
    (startStaggeredLaunch count delayMs (fun _ => false) envOf st).2
        = fullTrace delayMs count 0
      ∧ launchIndices (startStaggeredLaunch count delayMs (fun _ => false) envOf st).2
          = (List.range count).map (fun j => j + 1)
      ∧ (∃ k ≤ count,
          launchIndices (startStaggeredLaunch count delayMs shutdownAt envOf st).2
              = (List.range k).map (fun j => j + 1)
            ∧ (∀ j < k, shutdownAt (2 * j) = false)
            ∧ (k < count → shutdownAt (2 * k) = true))
      ∧ (shutdownAt 0 = true →
          (startStaggeredLaunch count delayMs shutdownAt envOf st).2 = [])
      ∧ (∃ t, ((startStaggeredLaunch count delayMs shutdownAt envOf st).1).pages
            = st.pages ++ t) := by
  unfold startStaggeredLaunch
  refine ⟨runStagger_no_shutdown delayMs envOf count 0 0 st, ?_, ?_, ?_, ?_⟩
  · rw [runStagger_no_shutdown delayMs envOf count 0 0 st,
      launchIndices_fullTrace delayMs count 0]
    exact List.map_congr_left fun a _ => by omega
  · obtain ⟨k, hk, heq, hfalse, htrue⟩ :=
      runStagger_launches delayMs shutdownAt envOf count 0 0 st
    refine ⟨k, hk, ?_, ?_, ?_⟩
    · rw [heq]
      exact List.map_congr_left fun a _ => by omega
    · intro j hj
      simpa using hfalse j hj
    · intro h
      simpa using htrue h
  · intro h0
    cases count with
    | zero => rfl
    | succ f => simp [startStaggeredLaunch, runStagger, h0]
  · exact runStagger_pages delayMs shutdownAt envOf count 0 0 st

/-- The launch environment used by the staggered-run witness: every
step succeeds and playback is confirmed. -/
def envOkW : LaunchEnv := ⟨.ok (), .ok (), .ok (), .ok (), true⟩

/-- Witness for C3: a budget of 3 launched from the initial state, once
uninterrupted, once under an oracle that raises the flag from the third
read onward, and once under a flag already raised at the first check. -/
theorem startStaggeredLaunch_spec_witness :
    (startStaggeredLaunch 3 1000 (fun _ => false) (fun _ => envOkW) initialState).2
        = fullTrace 1000 3 0
      ∧ launchIndices
          (startStaggeredLaunch 3 1000 (fun _ => false) (fun _ => envOkW) initialState).2
          = (List.range 3).map (fun j => j + 1)
      ∧ (∃ k ≤ 3,
          launchIndices (startStaggeredLaunch 3 1000 (fun c => decide (2 ≤ c))
              (fun _ => envOkW) initialState).2
              = (List.range k).map (fun j => j + 1)
            ∧ (∀ j < k, decide (2 ≤ 2 * j) = false)
            ∧ (k < 3 → decide (2 ≤ 2 * k) = true))
      ∧ (startStaggeredLaunch 3 1000 (fun _ => true) (fun _ => envOkW) initialState).2 = []
      ∧ (∃ t, ((startStaggeredLaunch 3 1000 (fun c => decide (2 ≤ c))
            (fun _ => envOkW) initialState).1).pages = initialState.pages ++ t) :=
  ⟨(startStaggeredLaunch_spec 3 1000 (fun c => decide (2 ≤ c)) (fun _ => envOkW)
      initialState (by norm_num)).1,
    (startStaggeredLaunch_spec 3 1000 (fun c => decide (2 ≤ c)) (fun _ => envOkW)
      initialState (by norm_num)).2.1,
    (startStaggeredLaunch_spec 3 1000 (fun c => decide (2 ≤ c)) (fun _ => envOkW)
      initialState (by norm_num)).2.2.1,
    (startStaggeredLaunch_spec 3 1000 (fun _ => true) (fun _ => envOkW)
      initialState (by norm_num)).2.2.2.1 rfl,
    (startStaggeredLaunch_spec 3 1000 (fun c => decide (2 ≤ c)) (fun _ => envOkW)
      initialState (by norm_num)).2.2.2.2⟩

end WowStress
